import Mathlib

/-!
Verification of the scrim-bot state reconciliation engine (`src/main.py`).

The Python source is shallowly embedded: Discord state (messages, reactions,
guild members, role holder sets, voice channels, the persistent
`message_ids.json` store, the stats store) becomes explicit data, and each
handler or helper becomes a pure function from that data to the updated data
together with the externally visible actions it performs.
-/

namespace ScrimBot

/-! ### Constants from the source -/

/-- Meeting Point voice channel id (`EVENT_CHANNEL_ID` in the source). -/
def EVENT_CHANNEL_ID : Nat := 1467091170176929968

/-- The signup marker emoji compared against `str(r.emoji)` in the source. -/
def checkEmoji : String := "✅"

/-! ### Data model: users, reactions, messages, guild -/

/-- A Discord user/member: its id and whether it is a bot account. -/
structure Member where
  id : Nat
  bot : Bool
deriving DecidableEq, Repr

/-- A reaction on a message: the emoji (as its string form) and the users
currently holding it (`r.users()` in the source). -/
structure Reaction where
  emoji : String
  users : List Member
deriving DecidableEq, Repr

/-- A message in the registration channel: its id and its reactions. -/
structure Message where
  id : Nat
  reactions : List Reaction
deriving DecidableEq, Repr

/-- `channel.fetch_message(mid)`: `some` message, or `none` for
`discord.NotFound`. -/
def fetch_message (channel : List Message) (mid : Nat) : Option Message :=
  channel.find? (fun m => m.id == mid)

/-- `guild.get_member(uid)`: look the user id up in the guild member list. -/
def get_member (members : List Member) (uid : Nat) : Option Member :=
  members.find? (fun m => m.id == uid)

/-- Whether `guild.get_member(uid)` succeeds. -/
def member_exists (members : List Member) (uid : Nat) : Bool :=
  (get_member members uid).isSome

/-- The ids of the guild's members. -/
def member_ids (members : List Member) : Finset Nat :=
  (members.map Member.id).toFinset

/-! ### Reaction reconciler (`get_all_reacted_ids`, `sync_roles`) -/

/-- The non-bot user ids holding the ✅ reaction on one message
(the inner two loops of `get_all_reacted_ids`). -/
def message_reacted_ids (msg : Message) : Finset Nat :=
  msg.reactions.foldl
    (fun acc r =>
      if r.emoji = checkEmoji then
        acc ∪ ((r.users.filter (fun u => !u.bot)).map Member.id).toFinset
      else acc) ∅

/-- `get_all_reacted_ids(channel, message_ids)`: first component is the set of
non-bot user ids that reacted ✅ on any tracked message that could be fetched;
second component is the message-id set after the loop's
`message_ids.discard(msg_id)` calls, i.e. the tracked ids whose fetch did not
fail with `discord.NotFound`. -/
def get_all_reacted_ids (channel : List Message) (message_ids : Finset Nat) :
    Finset Nat × Finset Nat :=
  (message_ids.biUnion (fun mid =>
      match fetch_message channel mid with
      | some msg => message_reacted_ids msg
      | none => ∅),
   message_ids.filter (fun mid => (fetch_message channel mid).isSome))

/-- Result of one `sync_roles` pass: the user ids for which `add_roles` was
called, the ids for which `remove_roles` was called, and the resulting
holder set of the registration role. -/
structure SyncResult where
  added : Finset Nat
  removed : Finset Nat
  holders : Finset Nat
deriving DecidableEq

/-- `sync_roles(guild, role, reacted_ids)`.  First loop: every id in
`reacted_ids` that resolves via `guild.get_member` and does not already hold
the role gets it.  Second loop: every current holder (`role.members`, hence a
guild member) whose id is not in `reacted_ids` loses it. -/
def sync_roles (members : List Member) (role_holders reacted_ids : Finset Nat) :
    SyncResult :=
  let added := reacted_ids.filter
    (fun uid => member_exists members uid = true ∧ uid ∉ role_holders)
  let holders1 := role_holders ∪ added
  let removed := holders1.filter
    (fun uid => member_exists members uid = true ∧ uid ∉ reacted_ids)
  ⟨added, removed, holders1 \ removed⟩

lemma member_exists_iff (members : List Member) (uid : Nat) :
    member_exists members uid = true ↔ uid ∈ member_ids members := by
  simp [member_exists, get_member, member_ids, List.find?_isSome]

/-- C1: after one reconciliation pass (`get_all_reacted_ids` followed by
`sync_roles`) the holder set of the registration role equals exactly the set
of non-bot users who reacted ✅ on a surviving tracked message, for every
prior holder set — provided every reacting user and every prior holder is a
member of the guild. -/
theorem reconcileRegistration_convergence
    (channel : List Message) (message_ids : Finset Nat) (members : List Member)
    (role_holders : Finset Nat)
    (hR : (get_all_reacted_ids channel message_ids).1 ⊆ member_ids members)
    (hH : role_holders ⊆ member_ids members) :
    (sync_roles members role_holders
        (get_all_reacted_ids channel message_ids).1).holders
      = (get_all_reacted_ids channel message_ids).1 := by
  ext uid
  have hRu : uid ∈ (get_all_reacted_ids channel message_ids).1 →
      member_exists members uid = true :=
    fun h => (member_exists_iff members uid).mpr (hR h)
  have hHu : uid ∈ role_holders → member_exists members uid = true :=
    fun h => (member_exists_iff members uid).mpr (hH h)
  simp only [sync_roles, Finset.mem_sdiff, Finset.mem_filter, Finset.mem_union]
  tauto

/-- Witness for C1, the spec's own scenario: message `10` carries ✅ from
users `1` and `2`; the role is initially held by `2` and `3`.  After the pass
the holders are exactly `{1, 2}`. -/
theorem reconcileRegistration_convergence_witness :
    (get_all_reacted_ids [⟨10, [⟨"✅", [⟨1, false⟩, ⟨2, false⟩]⟩]⟩] {10}).1 ⊆
        member_ids [⟨1, false⟩, ⟨2, false⟩, ⟨3, false⟩] ∧
    ({2, 3} : Finset Nat) ⊆ member_ids [⟨1, false⟩, ⟨2, false⟩, ⟨3, false⟩] ∧
    (sync_roles [⟨1, false⟩, ⟨2, false⟩, ⟨3, false⟩] {2, 3}
        (get_all_reacted_ids [⟨10, [⟨"✅", [⟨1, false⟩, ⟨2, false⟩]⟩]⟩] {10}).1).holders
      = (get_all_reacted_ids [⟨10, [⟨"✅", [⟨1, false⟩, ⟨2, false⟩]⟩]⟩] {10}).1 :=
  ⟨by decide, by decide,
   reconcileRegistration_convergence
     [⟨10, [⟨"✅", [⟨1, false⟩, ⟨2, false⟩]⟩]⟩] {10}
     [⟨1, false⟩, ⟨2, false⟩, ⟨3, false⟩] {2, 3} (by decide) (by decide)⟩

/-- C5: running the reconciliation a second time with unchanged reaction
state performs zero `add_roles` and zero `remove_roles` calls. -/
theorem reconcileRegistration_idempotent
    (channel : List Message) (message_ids : Finset Nat) (members : List Member)
    (role_holders : Finset Nat) :
    (sync_roles members
        (sync_roles members role_holders
          (get_all_reacted_ids channel message_ids).1).holders
        (get_all_reacted_ids channel message_ids).1).added = ∅ ∧
    (sync_roles members
        (sync_roles members role_holders
          (get_all_reacted_ids channel message_ids).1).holders
        (get_all_reacted_ids channel message_ids).1).removed = ∅ := by
  constructor <;>
  · refine Finset.eq_empty_iff_forall_not_mem.mpr fun uid h => ?_
    simp only [sync_roles, Finset.mem_filter, Finset.mem_sdiff,
      Finset.mem_union] at h
    tauto

/-! ### Voice-presence reconciler (`update_scrim_vc_roles`) -/

/-- A voice channel: its id and the members currently connected to it. -/
structure VoiceChannel where
  id : Nat
  members : List Member
deriving DecidableEq, Repr

/-- A guild snapshot: the member directory and the voice channels. -/
structure Guild where
  members : List Member
  voice_channels : List VoiceChannel
deriving DecidableEq, Repr

/-- The ids of the non-bot members of a voice channel (`member.bot` skip). -/
def nonbot_ids (l : List Member) : Finset Nat :=
  ((l.filter (fun m => !m.bot)).map Member.id).toFinset

/-- The VC scan's `members_in_meeting_point`: non-bot occupants of the voice
channel whose id is `EVENT_CHANNEL_ID`. -/
def members_in_meeting_point (g : Guild) : Finset Nat :=
  g.voice_channels.foldl
    (fun acc vc =>
      if vc.id = EVENT_CHANNEL_ID then acc ∪ nonbot_ids vc.members else acc) ∅

/-- The VC scan's `members_in_other_vc`: non-bot occupants of every other
voice channel. -/
def members_in_other_vc (g : Guild) : Finset Nat :=
  g.voice_channels.foldl
    (fun acc vc =>
      if vc.id = EVENT_CHANNEL_ID then acc else acc ∪ nonbot_ids vc.members) ∅

/-- Holder sets of the Active Scrim and Spectator Scrim roles. -/
structure VCRoles where
  active : Finset Nat
  spectator : Finset Nat
deriving DecidableEq

/-- `update_scrim_vc_roles(guild)`: the four loops of the source, in order.
Meeting Point occupants that resolve via `guild.get_member` gain Spectator
and lose Active; other-VC occupants gain Active and lose Spectator; finally
every holder of Active (resp. Spectator) that is a guild member and is in no
voice channel loses that role. -/
def update_scrim_vc_roles (g : Guild) (roles : VCRoles) : VCRoles :=
  let meeting := members_in_meeting_point g
  let other := members_in_other_vc g
  let all_in_vc := meeting ∪ other
  let meetingR := meeting.filter (fun uid => member_exists g.members uid = true)
  let otherR := other.filter (fun uid => member_exists g.members uid = true)
  let spectator1 := roles.spectator ∪ meetingR
  let active1 := roles.active \ meetingR
  let active2 := active1 ∪ otherR
  let spectator2 := spectator1 \ otherR
  let active3 := active2 \ (active2.filter
    (fun uid => member_exists g.members uid = true ∧ uid ∉ all_in_vc))
  let spectator3 := spectator2 \ (spectator2.filter
    (fun uid => member_exists g.members uid = true ∧ uid ∉ all_in_vc))
  ⟨active3, spectator3⟩

/-- C2: after `update_scrim_vc_roles`, every non-bot guild member matches the
partition — in the meeting channel implies Spectator only, in another voice
channel implies Active only, in no voice channel implies neither role —
provided no member occupies both the meeting channel and another channel in
the same snapshot. -/
theorem reconcileVoicePresence_partition
    (g : Guild) (roles : VCRoles)
    (hdisj : members_in_meeting_point g ∩ members_in_other_vc g = ∅)
    (m : Member) (hm : m ∈ g.members) (_hbot : m.bot = false) :
    (m.id ∈ members_in_meeting_point g →
        m.id ∈ (update_scrim_vc_roles g roles).spectator ∧
        m.id ∉ (update_scrim_vc_roles g roles).active) ∧
    (m.id ∈ members_in_other_vc g →
        m.id ∈ (update_scrim_vc_roles g roles).active ∧
        m.id ∉ (update_scrim_vc_roles g roles).spectator) ∧
    (m.id ∉ members_in_meeting_point g → m.id ∉ members_in_other_vc g →
        m.id ∉ (update_scrim_vc_roles g roles).active ∧
        m.id ∉ (update_scrim_vc_roles g roles).spectator) := by
  have hres : member_exists g.members m.id = true := by
    rw [member_exists_iff]
    simp only [member_ids, List.mem_toFinset, List.mem_map]
    exact ⟨m, hm, rfl⟩
  have hnot : ¬(m.id ∈ members_in_meeting_point g ∧
      m.id ∈ members_in_other_vc g) := by
    intro h
    have := Finset.eq_empty_iff_forall_not_mem.mp hdisj m.id
    exact this (Finset.mem_inter.mpr h)
  simp only [update_scrim_vc_roles, Finset.mem_sdiff, Finset.mem_filter,
    Finset.mem_union]
  tauto

/-- Witness for C2: member `1` is in the meeting channel, member `2` is in
another voice channel, member `3` is in no channel but held both roles. -/
theorem reconcileVoicePresence_partition_witness :
    (members_in_meeting_point
        ⟨[⟨1, false⟩, ⟨2, false⟩, ⟨3, false⟩],
         [⟨EVENT_CHANNEL_ID, [⟨1, false⟩]⟩, ⟨42, [⟨2, false⟩]⟩]⟩ ∩
      members_in_other_vc
        ⟨[⟨1, false⟩, ⟨2, false⟩, ⟨3, false⟩],
         [⟨EVENT_CHANNEL_ID, [⟨1, false⟩]⟩, ⟨42, [⟨2, false⟩]⟩]⟩ = ∅) ∧
    ((⟨1, false⟩ : Member) ∈
        ([⟨1, false⟩, ⟨2, false⟩, ⟨3, false⟩] : List Member)) ∧
    ((1 : Nat) ∈ members_in_meeting_point
        ⟨[⟨1, false⟩, ⟨2, false⟩, ⟨3, false⟩],
         [⟨EVENT_CHANNEL_ID, [⟨1, false⟩]⟩, ⟨42, [⟨2, false⟩]⟩]⟩ →
      (1 : Nat) ∈ (update_scrim_vc_roles
        ⟨[⟨1, false⟩, ⟨2, false⟩, ⟨3, false⟩],
         [⟨EVENT_CHANNEL_ID, [⟨1, false⟩]⟩, ⟨42, [⟨2, false⟩]⟩]⟩
        ⟨{3}, {3}⟩).spectator ∧
      (1 : Nat) ∉ (update_scrim_vc_roles
        ⟨[⟨1, false⟩, ⟨2, false⟩, ⟨3, false⟩],
         [⟨EVENT_CHANNEL_ID, [⟨1, false⟩]⟩, ⟨42, [⟨2, false⟩]⟩]⟩
        ⟨{3}, {3}⟩).active) :=
  ⟨by decide, by decide,
   (reconcileVoicePresence_partition
      ⟨[⟨1, false⟩, ⟨2, false⟩, ⟨3, false⟩],
       [⟨EVENT_CHANNEL_ID, [⟨1, false⟩]⟩, ⟨42, [⟨2, false⟩]⟩]⟩
      ⟨{3}, {3}⟩ (by decide) ⟨1, false⟩ (by decide) rfl).1⟩

/-! ### Persistent mapping store (`message_ids.json`)

The store is the dict `{event_id: message_id}` written by `save_data` and
read by `load_data`, embedded as an association list. -/

/-- `key in data` / `data[key]`: look a session id up in the store. -/
def store_lookup (data : List (Nat × Nat)) (k : Nat) : Option Nat :=
  (data.find? (fun p => p.1 == k)).map (fun p => p.2)

/-- `data.pop(key)` / `del data[key]`: remove a session id from the store. -/
def store_erase (data : List (Nat × Nat)) (k : Nat) : List (Nat × Nat) :=
  data.filter (fun p => p.1 != k)

/-- `data[key] = value`: bind a session id in the store. -/
def store_insert (data : List (Nat × Nat)) (k v : Nat) : List (Nat × Nat) :=
  store_erase data k ++ [(k, v)]

/-- `get_all_message_ids(data)`: the set of tracked signup message ids. -/
def get_all_message_ids (data : List (Nat × Nat)) : Finset Nat :=
  (data.map (fun p => p.2)).toFinset

lemma store_lookup_erase_self (data : List (Nat × Nat)) (k : Nat) :
    store_lookup (store_erase data k) k = none := by
  have h : (store_erase data k).find? (fun p => p.1 == k) = none := by
    rw [List.find?_eq_none]
    intro p hp
    rcases List.mem_filter.mp hp with ⟨-, hne⟩
    simpa using hne
  simp [store_lookup, h]

lemma store_lookup_insert_self (data : List (Nat × Nat)) (k v : Nat) :
    store_lookup (store_insert data k v) k = some v := by
  have h : (store_erase data k).find? (fun p => p.1 == k) = none := by
    rw [List.find?_eq_none]
    intro p hp
    rcases List.mem_filter.mp hp with ⟨-, hne⟩
    simpa using hne
  simp [store_lookup, store_insert, List.find?_append, h]

lemma find?_congr_aux {α : Type} (p q : α → Bool) (h : ∀ a, p a = q a) :
    ∀ l : List α, l.find? p = l.find? q
  | [] => rfl
  | a :: l => by
    rw [List.find?_cons, List.find?_cons, h a]
    cases q a
    · exact find?_congr_aux p q h l
    · rfl

lemma store_lookup_insert_other (data : List (Nat × Nat)) (k v k' : Nat)
    (hne : k' ≠ k) :
    store_lookup (store_insert data k v) k'
      = store_lookup (store_erase data k) k' := by
  simp only [store_lookup, store_insert, List.find?_append]
  have hkk : (k == k') = false := by simpa using Ne.symm hne
  have h : ([(k, v)].find? (fun p => p.1 == k')) = none := by
    simp [List.find?, hkk]
  rw [h]
  cases (store_erase data k).find? (fun p => p.1 == k') <;> simp

lemma store_lookup_erase_other (data : List (Nat × Nat)) (k k' : Nat)
    (hne : k' ≠ k) :
    store_lookup (store_erase data k) k' = store_lookup data k' := by
  simp only [store_lookup, store_erase, List.find?_filter]
  congr 1
  apply find?_congr_aux
  intro a
  by_cases ha : a.1 = k'
  · simp [ha, hne]
  · simp [ha]

/-! ### Session lifecycle: `on_scheduled_event_update` -/

/-- `discord.EventStatus` values relevant to the handler. -/
inductive EventStatus where
  | scheduled
  | active
  | ended
  | completed
  | cancelled
deriving DecidableEq, Repr

/-- `on_scheduled_event_update(before, after)` on the happy path of the
resurrection `try` block.  Inputs: the two global flags, the store, the ended
event's id and status, and the id the scheduler assigns to the newly created
session.  Output: how many `create_scheduled_event` calls the handler makes,
and the store afterwards. -/
def on_scheduled_event_update (manually_deleting scrim_active : Bool)
    (data : List (Nat × Nat)) (after_id : Nat) (after_status : EventStatus)
    (new_event_id : Nat) : Nat × List (Nat × Nat) :=
  if manually_deleting then (0, data)
  else if ¬(after_status = EventStatus.ended ∨
      after_status = EventStatus.completed) then (0, data)
  else if ¬scrim_active then (0, data)
  else
    match store_lookup data after_id with
    | none => (0, data)
    | some msg_id =>
        (1, store_insert (store_erase data after_id) new_event_id msg_id)

/-- C3 counterexample: the guard checks `scrim_active` as well.  With the
intentional-shutdown flag false and session `1` tracked (mapped to message
`10`), an "ended" notification arriving while `scrim_active` is false creates
zero sessions and leaves the store untouched — not the one creation plus
re-keying the claim asserts. -/
theorem resurrection_needs_scrim_active_cex :
    store_lookup [(1, 10)] 1 = some 10 ∧
    on_scheduled_event_update false false [(1, 10)] 1 EventStatus.ended 2
      = (0, [(1, 10)]) ∧
    ¬ (on_scheduled_event_update false false [(1, 10)] 1
        EventStatus.ended 2).1 = 1 := by
  refine ⟨rfl, rfl, ?_⟩
  decide

/-- C3 amended: if additionally the session is marked logically active
(`scrim_active = true`), an "ended" notification for a tracked session with
the intentional-shutdown flag false creates exactly one new session and
re-keys the store: the old session id is gone and the new session id maps to
the same signup message id. -/
theorem resurrection_rekeys_store
    (data : List (Nat × Nat)) (after_id new_event_id msg_id : Nat)
    (htracked : store_lookup data after_id = some msg_id)
    (hne : after_id ≠ new_event_id) :
    (on_scheduled_event_update false true data after_id
        EventStatus.ended new_event_id).1 = 1 ∧
    store_lookup (on_scheduled_event_update false true data after_id
        EventStatus.ended new_event_id).2 new_event_id = some msg_id ∧
    store_lookup (on_scheduled_event_update false true data after_id
        EventStatus.ended new_event_id).2 after_id = none := by
  have hval : on_scheduled_event_update false true data after_id
      EventStatus.ended new_event_id
      = (1, store_insert (store_erase data after_id) new_event_id msg_id) := by
    simp [on_scheduled_event_update, htracked]
  rw [hval]
  refine ⟨rfl, store_lookup_insert_self _ _ _, ?_⟩
  rw [store_lookup_insert_other _ _ _ _ hne,
    store_lookup_erase_other _ _ _ hne, store_lookup_erase_self]

/-- Witness for the amended C3 at session `1`, message `10`, new session
`2`. -/
theorem resurrection_rekeys_store_witness :
    store_lookup [(1, 10)] 1 = some 10 ∧ (1 : Nat) ≠ 2 ∧
    ((on_scheduled_event_update false true [(1, 10)] 1
        EventStatus.ended 2).1 = 1 ∧
     store_lookup (on_scheduled_event_update false true [(1, 10)] 1
        EventStatus.ended 2).2 2 = some 10 ∧
     store_lookup (on_scheduled_event_update false true [(1, 10)] 1
        EventStatus.ended 2).2 1 = none) :=
  ⟨by decide, by decide,
   resurrection_rekeys_store [(1, 10)] 1 2 10 (by decide) (by decide)⟩

/-- C4: while the intentional-shutdown flag (`manually_deleting`) is true,
the handler returns at once: zero `create_scheduled_event` calls and an
unchanged store, for every status, store and session id. -/
theorem resurrection_guard (scrim_active : Bool) (data : List (Nat × Nat))
    (after_id : Nat) (after_status : EventStatus) (new_event_id : Nat) :
    on_scheduled_event_update true scrim_active data after_id after_status
      new_event_id = (0, data) := by
  simp [on_scheduled_event_update]

/-! ### Self-healing of dead tracked message ids (C6) -/

/-- One registration reconciliation pass as its callers run it (`on_ready`,
the post-delete and post-cancel resyncs, `on_raw_message_delete`): reload the
store with `load_data`, derive the tracked ids with `get_all_message_ids`,
then run `get_all_reacted_ids`.  The source contains no `save_data` call on
this path, so the store after the pass is the input store unchanged; only the
in-memory id set loses the not-found ids. -/
def reconciliation_pass (channel : List Message) (data : List (Nat × Nat)) :
    (Finset Nat × Finset Nat) × List (Nat × Nat) :=
  (get_all_reacted_ids channel (get_all_message_ids data), data)

/-- The message ids a pass over store `data` fetches: `get_all_reacted_ids`
calls `channel.fetch_message(msg_id)` for every tracked id. -/
def pass_fetch_attempts (data : List (Nat × Nat)) : Finset Nat :=
  get_all_message_ids data

/-- C6 counterexample: session `1` tracks message `10`, which no longer
exists.  The pass hits `discord.NotFound` for `10`, yet the store after the
pass still tracks `10`, so the next pass (which reloads the store) fetches
`10` again — the dead id is retried, contrary to the claim. -/
theorem self_healing_not_persisted_cex :
    fetch_message [] 10 = none ∧
    10 ∈ pass_fetch_attempts [(1, 10)] ∧
    (reconciliation_pass [] [(1, 10)]).2 = [(1, 10)] ∧
    10 ∈ pass_fetch_attempts (reconciliation_pass [] [(1, 10)]).2 := by
  refine ⟨rfl, ?_, rfl, ?_⟩ <;> decide

/-- C6 amended: a tracked id whose fetch fails with not-found is removed from
the pass's in-memory tracked set (so a rerun over that surviving set does not
fetch it), but the persistent store is not updated, so passes that reload the
store fetch it again. -/
theorem self_healing_in_memory_only
    (channel : List Message) (message_ids : Finset Nat) (mid : Nat)
    (_hmem : mid ∈ message_ids)
    (hgone : fetch_message channel mid = none) :
    mid ∉ (get_all_reacted_ids channel message_ids).2 ∧
    mid ∉ (get_all_reacted_ids channel
        (get_all_reacted_ids channel message_ids).2).2 := by
  have h1 : mid ∉ (get_all_reacted_ids channel message_ids).2 := by
    simp [get_all_reacted_ids, hgone]
  refine ⟨h1, fun h => h1 ?_⟩
  exact (Finset.mem_filter.mp h).1

/-- Witness for the amended C6: dead message `10` in an empty channel. -/
theorem self_healing_in_memory_only_witness :
    (10 : Nat) ∈ ({10} : Finset Nat) ∧ fetch_message [] 10 = none ∧
    ((10 : Nat) ∉ (get_all_reacted_ids [] {10}).2 ∧
     (10 : Nat) ∉ (get_all_reacted_ids [] (get_all_reacted_ids [] {10}).2).2) :=
  ⟨by decide, by decide, self_healing_in_memory_only [] {10} 10 (by decide) (by decide)⟩

/-! ### Event warning loop (`check_events`) -/

/-- One `check_events` evaluation of a single scheduled event.  `diff` is
`(event.start_time - now).total_seconds()`; the 30-minute warning fires when
`1740 <= diff <= 1800` and the event id is not yet in `warned_events`, which
then records it.  Returns whether a warning was sent and the updated warned
set. -/
def check_events_warning (warned_events : Finset Nat) (event_id : Nat)
    (start_time now : Int) : Bool × Finset Nat :=
  let diff := start_time - now
  if 1740 ≤ diff ∧ diff ≤ 1800 ∧ event_id ∉ warned_events then
    (true, insert event_id warned_events)
  else (false, warned_events)

/-- Run the warning check at each tick instant in `times` in order, counting
the warnings sent. -/
def run_warning_ticks (warned_events : Finset Nat) (event_id : Nat)
    (start_time : Int) (times : List Int) : Nat × Finset Nat :=
  times.foldl
    (fun acc t =>
      let r := check_events_warning acc.2 event_id start_time t
      (acc.1 + (if r.1 then 1 else 0), r.2))
    (0, warned_events)

lemma check_events_warning_shift (w : Finset Nat) (eid : Nat) (s t c : Int) :
    check_events_warning w eid (s + c) (t + c)
      = check_events_warning w eid s t := by
  simp only [check_events_warning]
  rw [show s + c - (t + c) = s - t by ring]

lemma foldl_warning_shift (eid : Nat) (s c : Int) :
    ∀ (times : List Int) (acc : Nat × Finset Nat),
      (times.map (fun t => t + c)).foldl
        (fun acc t =>
          let r := check_events_warning acc.2 eid (s + c) t
          (acc.1 + (if r.1 then 1 else 0), r.2)) acc
      = times.foldl
        (fun acc t =>
          let r := check_events_warning acc.2 eid s t
          (acc.1 + (if r.1 then 1 else 0), r.2)) acc
  | [], _ => rfl
  | t :: ts, acc => by
    simp only [List.map_cons, List.foldl_cons]
    rw [check_events_warning_shift]
    exact foldl_warning_shift eid s c ts _

lemma run_warning_ticks_shift (w : Finset Nat) (eid : Nat) (s c : Int)
    (times : List Int) :
    run_warning_ticks w eid (s + c) (times.map (fun t => t + c))
      = run_warning_ticks w eid s times := by
  unfold run_warning_ticks
  exact foldl_warning_shift eid s c times (0, w)

/-- The tick instants of `n` consecutive one-minute `check_events` runs,
the first at `now0`. -/
def tick_times (now0 : Int) (n : Nat) : List Int :=
  (List.range n).map (fun k => now0 + 60 * (k : Int))

/-- C7: a session whose start time lies 1790 seconds (29 minutes 50 seconds)
after the first tick receives exactly one warning across ten consecutive
one-minute ticks, for every first-tick instant and event id, starting from an
empty warned set. -/
theorem warning_fires_exactly_once (now0 : Int) (event_id : Nat) :
    (run_warning_ticks ∅ event_id (now0 + 1790) (tick_times now0 10)).1
      = 1 := by
  have hmap : tick_times now0 10
      = (tick_times 0 10).map (fun t => t + now0) := by
    unfold tick_times
    rw [List.map_map]
    congr 1
    funext k
    simp only [Function.comp]
    ring
  rw [show now0 + 1790 = (1790 : Int) + now0 by ring, hmap,
    run_warning_ticks_shift]
  norm_num [run_warning_ticks, tick_times, check_events_warning,
    List.range_succ]

/-! ### Reaction removal handler (`on_raw_reaction_remove`) -/

/-- Whether a fetched message carries a ✅ reaction held by user `uid`
(the inner loops of the handler's still-reacted scan). -/
def message_has_check_from (msg : Message) (uid : Nat) : Bool :=
  msg.reactions.any
    (fun r => r.emoji == checkEmoji && r.users.any (fun u => u.id == uid))

/-- The handler's still-reacted scan: some tracked message other than the one
the reaction was removed from can be fetched and still carries the user's ✅.
Messages that fail to fetch are skipped (`except NotFound: pass`). -/
def still_reacted (channel : List Message) (message_ids : Finset Nat)
    (payload_message_id uid : Nat) : Prop :=
  ∃ mid ∈ message_ids, mid ≠ payload_message_id ∧
    ((fetch_message channel mid).map
      (fun msg => message_has_check_from msg uid)).getD false = true

instance (channel : List Message) (message_ids : Finset Nat)
    (pmid uid : Nat) : Decidable (still_reacted channel message_ids pmid uid) := by
  unfold still_reacted
  infer_instance

/-- `on_raw_reaction_remove(payload)`: ignore untracked messages, non-✅
emoji, unknown users and bots; otherwise remove the registration role only if
the user no longer holds ✅ on any other tracked message. -/
def on_raw_reaction_remove (channel : List Message) (message_ids : Finset Nat)
    (members : List Member) (role_holders : Finset Nat)
    (payload_message_id : Nat) (payload_emoji : String)
    (payload_user_id : Nat) : Finset Nat :=
  if payload_message_id ∉ message_ids then role_holders
  else if payload_emoji ≠ checkEmoji then role_holders
  else
    match get_member members payload_user_id with
    | none => role_holders
    | some member =>
      if member.bot then role_holders
      else if still_reacted channel message_ids payload_message_id member.id
      then role_holders
      else role_holders.erase member.id

lemma get_member_id (members : List Member) (uid : Nat) (m : Member)
    (h : get_member members uid = some m) : m.id = uid := by
  have := List.find?_some h
  simpa using this

/-- C8: when a non-bot guild member un-reacts ✅ from a tracked message, the
handler leaves the registration role in place exactly when the member still
holds ✅ on some other tracked message; the role is removed only when no
other tracked message carries the member's ✅. -/
theorem on_raw_reaction_remove_union_semantics
    (channel : List Message) (message_ids : Finset Nat) (members : List Member)
    (role_holders : Finset Nat) (pmid uid : Nat) (m : Member)
    (hp : pmid ∈ message_ids)
    (hm : get_member members uid = some m)
    (hbot : m.bot = false)
    (huid : uid ∈ role_holders) :
    uid ∈ on_raw_reaction_remove channel message_ids members role_holders
        pmid checkEmoji uid
      ↔ still_reacted channel message_ids pmid uid := by
  have hid : m.id = uid := get_member_id members uid m hm
  by_cases hs : still_reacted channel message_ids pmid uid
  · simp [on_raw_reaction_remove, hp, hm, hbot, hid, hs, huid]
  · simp [on_raw_reaction_remove, hp, hm, hbot, hid, hs]

/-- Witness for C8: user `5` reacted ✅ on tracked messages `10` and `11`,
removes the reaction from `10`, and keeps the role thanks to `11`. -/
theorem on_raw_reaction_remove_union_semantics_witness :
    (10 : Nat) ∈ ({10, 11} : Finset Nat) ∧
    get_member [⟨5, false⟩] 5 = some ⟨5, false⟩ ∧
    (Member.mk 5 false).bot = false ∧
    (5 : Nat) ∈ ({5} : Finset Nat) ∧
    ((5 : Nat) ∈ on_raw_reaction_remove
        [⟨10, [⟨"✅", [⟨5, false⟩]⟩]⟩, ⟨11, [⟨"✅", [⟨5, false⟩]⟩]⟩]
        {10, 11} [⟨5, false⟩] {5} 10 checkEmoji 5
      ↔ still_reacted
        [⟨10, [⟨"✅", [⟨5, false⟩]⟩]⟩, ⟨11, [⟨"✅", [⟨5, false⟩]⟩]⟩]
        {10, 11} 10 5) :=
  ⟨by decide, by decide, rfl, by decide,
   on_raw_reaction_remove_union_semantics
     [⟨10, [⟨"✅", [⟨5, false⟩]⟩]⟩, ⟨11, [⟨"✅", [⟨5, false⟩]⟩]⟩]
     {10, 11} [⟨5, false⟩] {5} 10 5 ⟨5, false⟩
     (by decide) (by decide) rfl (by decide)⟩

/-! ### Intentional teardown (`r!delete event`) and the guard flag (C9) -/

/-- The steps of the delete command that matter to the guard invariant:
writes to `manually_deleting`, and external mutations (role strips, the role
re-sync, message deletions, channel clears, ending the event). -/
inductive DelAction where
  | setFlag (value : Bool)
  | mutate
deriving DecidableEq, Repr

/-- Outcome of the `try` block around the role re-sync: success,
`discord.Forbidden`, or another exception. -/
inductive SyncOutcome where
  | ok
  | forbidden
  | error
deriving DecidableEq, Repr

/-- Outcomes of the command's external calls: the `try`-guarded operations,
and the `await ctx.send` status messages that the source leaves outside any
`try` (or inside an `except` body) — those sends can raise too, and when they
do the exception propagates out of the command. -/
structure DeleteOutcomes where
  send_start_ok : Bool
  fetch_ok : Bool
  send_fetch_warn_ok : Bool
  sync : SyncOutcome
  delete_msgs_ok : Bool
  clear_scrim_ok : Bool
  send_clear_scrim_ok : Bool
  clear_links_ok : Bool
  send_clear_links_ok : Bool
  has_active_event : Bool
  end_ok : Bool
  send_end_warn_ok : Bool
deriving DecidableEq, Repr

/-- Result of a `r!delete event` run: the two global flags afterwards and the
trace of guard-relevant steps. -/
structure DeleteResult where
  manually_deleting : Bool
  scrim_active : Bool
  trace : List DelAction
deriving DecidableEq, Repr

/-- `r!delete event`, embedded as its control-flow skeleton over the global
flags.  Wrong arguments return before touching anything.  Otherwise
`manually_deleting = True` and `scrim_active = False` are written first, then
the external calls run in source order.  Any `await` can raise: an exception
from an unguarded send (the status message before the teardown, the warning
send in the fetch `except` body, and the error-report sends in the
channel-clear and event-end `except` bodies) propagates out of the command —
with no `try`/`finally` around the body, such an exit leaves
`manually_deleting` at its current value, which on those paths is still
`True`.  The explicitly handled exits (the re-sync block's `Forbidden` and
generic handlers and the message-deletion block's handler) assign
`manually_deleting = False` before returning, as does the normal completion. -/
def delete_command (args_is_event : Bool) (md0 sa0 : Bool)
    (o : DeleteOutcomes) : DeleteResult :=
  if ¬args_is_event then ⟨md0, sa0, []⟩
  else
    let t1 : List DelAction := [.setFlag true]
    if !o.send_start_ok then ⟨true, false, t1⟩
    else if !o.fetch_ok && !o.send_fetch_warn_ok then ⟨true, false, t1⟩
    else
      let t2 := t1 ++ [.mutate, .mutate]
      let t3 := t2 ++ [.mutate]
      match o.sync with
      | .forbidden => ⟨false, false, t3 ++ [.setFlag false]⟩
      | .error => ⟨false, false, t3 ++ [.setFlag false]⟩
      | .ok =>
        let t4 := t3 ++ [.mutate]
        if !o.delete_msgs_ok then ⟨false, false, t4 ++ [.setFlag false]⟩
        else
          let t5 := t4 ++ [.mutate]
          if !o.clear_scrim_ok && !o.send_clear_scrim_ok then
            ⟨true, false, t5⟩
          else
            let t6 := t5 ++ [.mutate]
            if !o.clear_links_ok && !o.send_clear_links_ok then
              ⟨true, false, t6⟩
            else if o.fetch_ok && o.has_active_event then
              let t7 := t6 ++ [.mutate]
              if !o.end_ok && !o.send_end_warn_ok then ⟨true, false, t7⟩
              else ⟨false, false, t7 ++ [.setFlag false]⟩
            else ⟨false, false, t6 ++ [.setFlag false]⟩

/-- C9: the code violates the claim.  Run (a): the unguarded status send
right after `manually_deleting = True` raises, and the command terminates
with the flag still true before any mutation.  Run (b): clearing the scrim
channel fails and the error-report send in the `except` body raises, so the
command terminates mid-teardown with the flag still true.  Both contradict
"after the operation terminates by any path the flag is false"; with no
`try`/`finally`, the final reset is simply never reached on these paths. -/
theorem delete_flag_leaks_on_unguarded_send :
    (delete_command true false true
        ⟨false, true, true, SyncOutcome.ok, true, true, true, true, true,
         true, true, true⟩).manually_deleting = true ∧
    (delete_command true false true
        ⟨true, true, true, SyncOutcome.ok, true, false, false, true, true,
         true, true, true⟩).manually_deleting = true ∧
    (delete_command true false true
        ⟨true, true, true, SyncOutcome.ok, true, false, false, true, true,
         true, true, true⟩).trace.head? = some (DelAction.setFlag true) := by
  refine ⟨rfl, rfl, rfl⟩

/-! ### Attendance stats (`r!event update`, C10) -/

/-- One `stats.json` entry: `{"registered": _, "attended": _}`. -/
structure UserStats where
  registered : Nat
  attended : Nat
deriving DecidableEq, Repr

/-- `user_id in stats` / `stats[user_id]` on the stats dict. -/
def stats_lookup (stats : List (Nat × UserStats)) (uid : Nat) :
    Option UserStats :=
  (stats.find? (fun p => p.1 == uid)).map (fun p => p.2)

/-- `stats[user_id] = value` on the stats dict. -/
def stats_set (stats : List (Nat × UserStats)) (uid : Nat) (v : UserStats) :
    List (Nat × UserStats) :=
  (uid, v) :: stats.filter (fun p => p.1 != uid)

/-- `get_or_create_stats(stats, user_id)`: return the entry for a user,
inserting the default `{"registered": 0, "attended": 0}` if absent.  Returns
the possibly-extended dict and the entry. -/
def get_or_create_stats (stats : List (Nat × UserStats)) (uid : Nat) :
    List (Nat × UserStats) × UserStats :=
  match stats_lookup stats uid with
  | some s => (stats, s)
  | none => (stats_set stats uid ⟨0, 0⟩, ⟨0, 0⟩)

/-- One iteration of the attendance loop in `r!event update`:
`user_stats["registered"] += 1`, and `user_stats["attended"] += 1` when the
user is currently in a voice channel. -/
def record_attendance (stats : List (Nat × UserStats)) (uid : Nat)
    (in_vc : Bool) : List (Nat × UserStats) :=
  let r := get_or_create_stats stats uid
  stats_set r.1 uid
    ⟨r.2.registered + 1, r.2.attended + (if in_vc then 1 else 0)⟩

/-- The attendance-recording loop of `r!event update`: iterate over the
reacted users, crediting attendance for those in `all_in_vc`. -/
def event_update_stats (stats : List (Nat × UserStats)) (reacted : List Nat)
    (all_in_vc : Finset Nat) : List (Nat × UserStats) :=
  reacted.foldl
    (fun s uid => record_attendance s uid (decide (uid ∈ all_in_vc))) stats

/-- Any sequence of `r!event update` attendance recordings, starting from the
empty stats store. -/
def run_event_updates (ops : List (List Nat × Finset Nat)) :
    List (Nat × UserStats) :=
  ops.foldl (fun s op => event_update_stats s op.1 op.2) []

/-- The stats-store invariant: every entry has `attended <= registered`. -/
def stats_ok (stats : List (Nat × UserStats)) : Prop :=
  ∀ p ∈ stats, p.2.attended ≤ p.2.registered

lemma stats_ok_set {stats : List (Nat × UserStats)} {uid : Nat}
    {v : UserStats} (h : stats_ok stats) (hv : v.attended ≤ v.registered) :
    stats_ok (stats_set stats uid v) := by
  intro p hp
  rcases List.mem_cons.mp hp with rfl | hp'
  · exact hv
  · exact h p (List.mem_of_mem_filter hp')

lemma stats_ok_lookup {stats : List (Nat × UserStats)} {uid : Nat}
    {s : UserStats} (h : stats_ok stats)
    (hl : stats_lookup stats uid = some s) :
    s.attended ≤ s.registered := by
  simp only [stats_lookup, Option.map_eq_some'] at hl
  rcases hl with ⟨p, hp, rfl⟩
  exact h p (List.mem_of_find?_eq_some hp)

lemma stats_ok_record {stats : List (Nat × UserStats)} {uid : Nat}
    {in_vc : Bool} (h : stats_ok stats) :
    stats_ok (record_attendance stats uid in_vc) := by
  unfold record_attendance get_or_create_stats
  cases hl : stats_lookup stats uid with
  | none =>
    refine stats_ok_set (stats_ok_set h ?_) ?_
    · exact Nat.le_refl 0
    · cases in_vc <;> simp
  | some s =>
    have hs := stats_ok_lookup h hl
    refine stats_ok_set h ?_
    exact Nat.add_le_add hs (by cases in_vc <;> simp)

lemma stats_ok_event_update {reacted : List Nat} :
    ∀ {stats : List (Nat × UserStats)} {all_in_vc : Finset Nat},
      stats_ok stats → stats_ok (event_update_stats stats reacted all_in_vc) := by
  induction reacted with
  | nil => exact fun h => h
  | cons uid rest ih =>
    intro stats all_in_vc h
    exact ih (stats_ok_record h)

lemma stats_ok_run (ops : List (List Nat × Finset Nat)) :
    stats_ok (run_event_updates ops) := by
  suffices h : ∀ stats, stats_ok stats →
      stats_ok (ops.foldl (fun s op => event_update_stats s op.1 op.2) stats) by
    exact h [] (by intro p hp; simp at hp)
  induction ops with
  | nil => exact fun _ h => h
  | cons op rest ih =>
    intro stats h
    exact ih _ (stats_ok_event_update h)

/-- C10: starting from the empty stats store, after any sequence of
attendance-recording update operations every member's attended count is at
most their registered count. -/
theorem attendance_le_registered (ops : List (List Nat × Finset Nat))
    (uid : Nat) :
    ((stats_lookup (run_event_updates ops) uid).getD ⟨0, 0⟩).attended
      ≤ ((stats_lookup (run_event_updates ops) uid).getD ⟨0, 0⟩).registered := by
  cases hl : stats_lookup (run_event_updates ops) uid with
  | none => simp
  | some s => simpa using stats_ok_lookup (stats_ok_run ops) hl

end ScrimBot
